import Mathlib

/-
Shallow embedding of the ethsign command-line tool (ethsign.go).

The repository is a CLI shim over the go-ethereum accounts library: it
parses flags, locates an account across a keystore backend and two USB
hardware-wallet hubs, acquires a passphrase, and delegates signing.  The
external library primitives (keccak256, hex decoding, RLP, scrypt
keystore, USB transport, secp256k1) are NOT part of the repository; they
are modelled as uninterpreted function fields of an Env record, while
every piece of control flow written in ethsign.go itself is translated
directly below.  Go byte values are Nat with explicit mod 256 where
arithmetic occurs; Go strings are Lean String (the relevant string
operations are byte-transparent on ASCII, and are modelled on the
character list).
-/

namespace Ethsign

/-- Ethereum address, abstract (go-ethereum common.Address). -/
abbrev Address := Nat

/-- Opaque token standing for a signed types.Transaction returned by the library. -/
abbrev SignedTx := Nat

/-- An account as exposed by an accounts.Wallet (only the address is used). -/
structure Account where
  address : Address
  deriving DecidableEq, Repr

/-- A wallet as returned by the accounts manager.  scheme models x.URL().Scheme;
accounts models x.Accounts(); derive models x.Derive(path, pin), where none
stands for a non-nil error. -/
structure Wallet where
  scheme : String
  accounts : List Account
  derive : String → Bool → Option Account

/-- The transaction object built by types.NewContractCreation and
types.NewTransaction (ethsign.go lines 257-262), field order as the calls. -/
inductive Tx where
  | creation (nonce : Nat) (value gasLimit gasPrice : Int) (data : List Nat)
  | call (nonce : Nat) (toAddr : Address) (value gasLimit gasPrice : Int) (data : List Nat)
  deriving DecidableEq, Repr

/-- The external world: the wallet backends and the go-ethereum / OS library
functions the repository calls but does not implement.  none models a non-nil
error (or a panic source for the Must* parsers and MustDecode). -/
structure Env where
  keystoreWallets : List Wallet
  ledgerHub : Option (List Wallet)
  trezorHub : Option (List Wallet)
  hexToAddress : String → Address
  addrHex : Address → String
  parseUint64 : String → Option Nat
  parseBig256 : String → Option Int
  mustDecode : String → Option (List Nat)
  readFile : String → Option String
  termRead : Option String
  keccak : List Nat → List Nat
  signTx : Wallet → Account → String → Tx → Int → Option SignedTx
  signHashWP : Wallet → Account → String → List Nat → Option (List Nat)
  rlp : SignedTx → List Nat

/-- How an Action invocation ends: normal return, cli.NewExitError, or a Go panic
(from math.MustParse* / hexutil.MustDecode / out-of-range indexing). -/
inductive Outcome where
  | success
  | exitError (msg : String)
  | panicked
  deriving DecidableEq, Repr

/-- Result of the transaction Action.  signedWith is a ghost field recording the
(passphrase, tx, chainID) arguments passed to wallet.SignTxWithPassphrase, or
none when signing was never attempted; it changes no observable behaviour. -/
structure TxResult where
  outcome : Outcome
  stdout : List String
  stderr : List String
  signedWith : Option (String × Tx × Int)
  deriving DecidableEq, Repr

/-- Result of the message Action.  signedWith is a ghost field recording the
(passphrase, hash) arguments passed to wallet.SignHashWithPassphrase, or none
when signing was never attempted. -/
structure MsgResult where
  outcome : Outcome
  stdout : List String
  stderr : List String
  signedWith : Option (String × List Nat)
  deriving DecidableEq, Repr

/-- ASCII apostrophe, kept out of source literals. -/
def tickStr : String := String.mk [Char.ofNat 39]

/-- Lowercase hex digit for a value below 16 (hexutil alphabet). -/
def hexDigit (n : Nat) : Char :=
  if n < 10 then Char.ofNat (48 + n) else Char.ofNat (87 + n)

/-- Two hex characters of one byte, high nibble first. -/
def byteHex (b : Nat) : List Char :=
  [hexDigit (b / 16 % 16), hexDigit (b % 16)]

/-- Hex characters of a byte sequence. -/
def hexDigits (bs : List Nat) : String :=
  String.mk (bs.map byteHex).flatten

/-- hexutil.Encode: hex with a 0x prefix (library contract used at
ethsign.go lines 270 and 393). -/
def hexEncode (bs : List Nat) : String :=
  ("0x") ++ hexDigits bs

/-- Bytes of a Go string (ASCII-transparent model: one Nat per character). -/
def strBytes (s : String) : List Nat :=
  s.data.map Char.toNat

/-- The Ethereum signed-message header written in the Sprintf format string at
ethsign.go line 34. -/
def msgHeaderStr : String := "\x19Ethereum Signed Message:\n"

/-- signHash (ethsign.go lines 33-36): keccak256 of
Sprintf of the header, the decimal length, and the raw message bytes.  keccak
is the library primitive crypto.Keccak256, passed in uninterpreted. -/
def signHash (keccak : List Nat → List Nat) (data : List Nat) : List Nat :=
  keccak (strBytes (msgHeaderStr ++ Nat.repr data.length) ++ data)

/-- getWallets (ethsign.go lines 38-58): the keystore backend always, then the
Ledger hub and the Trezor hub when their constructors return no error, each
failure printing a notice to stderr.  Returns the manager wallet list (modelled
as the concatenation of the backend wallet lists; the claims do not depend on
the sort order applied by accounts.NewManager) together with the stderr lines. -/
def getWallets (ks : List Wallet) (lh th : Option (List Wallet)) :
    List Wallet × List String :=
  match lh, th with
  | none, none => (ks, [("ethsign: failed to look for USB Ledgers"), ("ethsign: failed to look for USB Trezors")])
  | none, some tw => (ks ++ tw, [("ethsign: failed to look for USB Ledgers")])
  | some lw, none => (ks ++ lw, [("ethsign: failed to look for USB Trezors")])
  | some lw, some tw => (ks ++ lw ++ tw, [])

/-- Derivation path string built by Sprintf at ethsign.go lines 89, 210, 338. -/
def derivationPath (j : Nat) : String :=
  ("m/44") ++ tickStr ++ ("/60") ++ tickStr ++ ("/0") ++ tickStr ++ ("/") ++ Nat.repr j

/-- The loop bounds j := 0; j <= 3 of the derivation loops. -/
def hwIndices : List Nat := [0, 1, 2, 3]

/-- The inner hardware-wallet loop of the transaction and message Scan loops
(ethsign.go lines 209-223 and 337-351): derive each path with pin chaining on,
exit on a derivation error, stop at the first account whose address matches.
The first component is a ghost trace of the path strings actually passed to
x.Derive; the second is the outcome. -/
def deriveSearch (w : Wallet) (a : Address) : List Nat → List String × Except String (Option Account)
  | [] => ([], Except.ok none)
  | j :: js =>
    match w.derive (derivationPath j) true with
    | none => ([derivationPath j], Except.error ("ethsign: Ledger needs to be in Ethereum app with browser support off"))
    | some y =>
      if decide (y.address = a) then
        ([derivationPath j], Except.ok (some y))
      else
        (derivationPath j :: (deriveSearch w a js).1, (deriveSearch w a js).2)

/-- The Scan loop shared by the transaction and message Actions (ethsign.go
lines 197-225 and 325-353): walk the wallet list; for a keystore wallet compare
each account address, for a ledger wallet run the derivation loop; any other
scheme is not examined.  ok (some (w, acct, needPassphrase)) is a match,
ok none means the loop fell through, error is the Ledger derivation exit. -/
def scan (a : Address) : List Wallet → Except String (Option (Wallet × Account × Bool))
  | [] => Except.ok none
  | w :: ws =>
    if decide (w.scheme = ("keystore")) then
      match w.accounts.find? (fun y => decide (y.address = a)) with
      | some y => Except.ok (some (w, y, true))
      | none => scan a ws
    else if decide (w.scheme = ("ledger")) then
      match (deriveSearch w a hwIndices).2 with
      | Except.error e => Except.error e
      | Except.ok (some y) => Except.ok (some (w, y, false))
      | Except.ok none => scan a ws
    else
      scan a ws

/-- strings.TrimSuffix(s, newline) applied to the passphrase file contents
(ethsign.go lines 243 and 371): drop one trailing newline when present. -/
def trimNewline (s : String) : String :=
  if decide (s.data.getLast? = some (Char.ofNat 10)) then String.mk s.data.dropLast else s

/-- The interactive prompt written to stderr before terminal.ReadPassword. -/
def promptMsg : String := "Ethereum account passphrase (not echoed): "

/-- The notice written to stderr when a hardware wallet will confirm on-device. -/
def waitingMsg : String := "Waiting for hardware wallet confirmation...\n"

/-- The passphrase block shared by the transaction and message Actions
(ethsign.go lines 234-255 and 362-383).  Returns the stderr lines written and
either an exit-error message or the passphrase handed to the signing call:
with needPassphrase, either the passphrase file (when the flag is non-empty) or
the echo-disabled terminal prompt; without it, the empty passphrase. -/
def acquirePassphrase (env : Env) (pf : String) (needPassphrase : Bool) :
    List String × Except String String :=
  if needPassphrase then
    if decide (¬ pf = "") then
      match env.readFile pf with
      | none => ([], Except.error ("ethsign: failed to read passphrase file"))
      | some content => ([], Except.ok (trimNewline content))
    else
      match env.termRead with
      | none => ([promptMsg], Except.error ("ethsign: failed to read passphrase"))
      | some s => ([promptMsg], Except.ok s)
  else
    ([waitingMsg], Except.ok "")

/-- The flag record of the transaction subcommand (string flags as given on the
command line; create is the bool flag). -/
structure TxOpts where
  create : Bool
  fromStr : String
  passphraseFile : String
  chainId : String
  toStr : String
  nonce : String
  gasPrice : String
  gasLimit : String
  value : String
  data : String
  deriving DecidableEq, Repr

/-- c.String(name) for the transaction subcommand. -/
def TxOpts.flag (t : TxOpts) (r : String) : String :=
  if decide (r = ("nonce")) then t.nonce
  else if decide (r = ("value")) then t.value
  else if decide (r = ("gas-price")) then t.gasPrice
  else if decide (r = ("gas-limit")) then t.gasLimit
  else if decide (r = ("chain-id")) then t.chainId
  else if decide (r = ("from")) then t.fromStr
  else if decide (r = ("to")) then t.toStr
  else if decide (r = ("data")) then t.data
  else if decide (r = ("passphrase-file")) then t.passphraseFile
  else ""

/-- The requireds list of the transaction Action (ethsign.go lines 156-158). -/
def txRequireds : List String :=
  [("nonce"), ("value"), ("gas-price"), ("gas-limit"), ("chain-id"), ("from")]

/-- The data default of the transaction Action (ethsign.go lines 184-187):
an empty --data becomes 0x before hexutil.MustDecode. -/
def txDataDefault (s : String) : String :=
  if decide (s = "") then ("0x") else s

/-- Transaction construction (ethsign.go lines 257-262). -/
def txBuild (create : Bool) (nonce : Nat) (toAddr : Address)
    (value gasLimit gasPrice : Int) (data : List Nat) : Tx :=
  if create then Tx.creation nonce value gasLimit gasPrice data
  else Tx.call nonce toAddr value gasLimit gasPrice data

/-- The signing tail of the transaction Action (ethsign.go lines 264-272):
call wallet.SignTxWithPassphrase, exit on error, otherwise print the
hex-encoded RLP encoding of the signed transaction as the single stdout line. -/
def txSign (env : Env) (w : Wallet) (acct : Account) (p : String) (tx : Tx)
    (chainID : Int) (errOut : List String) : TxResult :=
  match env.signTx w acct p tx chainID with
  | none => ⟨Outcome.exitError ("ethsign: failed to sign tx"), [], errOut, some (p, tx, chainID)⟩
  | some signed => ⟨Outcome.success, [hexEncode (env.rlp signed)], errOut, some (p, tx, chainID)⟩

/-- Passphrase acquisition followed by the signing tail (transaction Action,
ethsign.go lines 234-272). -/
def txFinish (env : Env) (pf : String) (w : Wallet) (acct : Account)
    (needPassphrase : Bool) (tx : Tx) (chainID : Int) (hubErrs : List String) : TxResult :=
  match (acquirePassphrase env pf needPassphrase).2 with
  | Except.error e =>
    ⟨Outcome.exitError e, [], hubErrs ++ (acquirePassphrase env pf needPassphrase).1, none⟩
  | Except.ok p =>
    txSign env w acct p tx chainID (hubErrs ++ (acquirePassphrase env pf needPassphrase).1)

/-- The transaction Action (ethsign.go lines 155-273): required flags, the
to/create checks, flag parsing (a failing Must* parse or MustDecode is the
panicked outcome), getWallets, the Scan loop, then txFinish. -/
def txAction (env : Env) (t : TxOpts) : TxResult :=
  match txRequireds.find? (fun r => decide (TxOpts.flag t r = "")) with
  | some r => ⟨Outcome.exitError (("ethsign: missing required parameter --") ++ r), [], [], none⟩
  | none =>
    if (decide (t.toStr = "") && !t.create) || (!decide (t.toStr = "") && t.create) then
      ⟨Outcome.exitError ("ethsign: need exactly one of --to or --create"), [], [], none⟩
    else if t.create && decide (t.data = "") then
      ⟨Outcome.exitError ("ethsign: need --data when doing --create"), [], [], none⟩
    else
      match env.parseUint64 t.nonce, env.parseBig256 t.gasPrice,
            env.parseBig256 t.gasLimit, env.parseBig256 t.value,
            env.parseBig256 t.chainId with
      | some nonce, some gasPrice, some gasLimit, some value, some chainID =>
        match env.mustDecode (txDataDefault t.data) with
        | none => ⟨Outcome.panicked, [], [], none⟩
        | some d =>
          match scan (env.hexToAddress t.fromStr)
              (getWallets env.keystoreWallets env.ledgerHub env.trezorHub).1 with
          | Except.error e =>
            ⟨Outcome.exitError e, [],
              (getWallets env.keystoreWallets env.ledgerHub env.trezorHub).2, none⟩
          | Except.ok none =>
            ⟨Outcome.exitError ("ethsign: account not found"), [],
              (getWallets env.keystoreWallets env.ledgerHub env.trezorHub).2, none⟩
          | Except.ok (some (w, acct, needPassphrase)) =>
            txFinish env t.passphraseFile w acct needPassphrase
              (txBuild t.create nonce (env.hexToAddress t.toStr) value gasLimit gasPrice d)
              chainID
              (getWallets env.keystoreWallets env.ledgerHub env.trezorHub).2
      | _, _, _, _, _ => ⟨Outcome.panicked, [], [], none⟩

/-- The flag record of the message subcommand. -/
structure MsgOpts where
  fromStr : String
  passphraseFile : String
  data : String
  deriving DecidableEq, Repr

/-- c.String(name) for the message subcommand. -/
def MsgOpts.flag (m : MsgOpts) (r : String) : String :=
  if decide (r = ("from")) then m.fromStr
  else if decide (r = ("data")) then m.data
  else if decide (r = ("passphrase-file")) then m.passphraseFile
  else ""

/-- The requireds list of the message Action (ethsign.go lines 300-302). -/
def msgRequireds : List String := [("from"), ("data")]

/-- strings.HasPrefix(s, 0x) of the message Action, modelled on the character
list (the first two bytes of a UTF-8 string are 0x30 0x78 exactly when its
first two characters are the digit zero and the letter x). -/
def goHasPrefix0x (s : String) : Bool :=
  decide (s.data.take 2 = [Char.ofNat 48, Char.ofNat 120])

/-- The data normalization of the message Action (ethsign.go lines 312-315):
prepend 0x when the flag value does not already start with it. -/
def msgNormalize (s : String) : String :=
  if goHasPrefix0x s then s else ("0x") ++ s

/-- The signing tail of the message Action (ethsign.go lines 385-393): call
wallet.SignHashWithPassphrase, exit on error; add 27 to signature byte 64
(Go byte arithmetic, mod 256; indexing out of range is a panic) and print the
hex encoding as the single stdout line. -/
def msgSign (env : Env) (w : Wallet) (acct : Account) (p : String)
    (h : List Nat) (errOut : List String) : MsgResult :=
  match env.signHashWP w acct p h with
  | none => ⟨Outcome.exitError ("ethsign: failed to sign tx"), [], errOut, some (p, h)⟩
  | some sig =>
    match sig[64]? with
    | none => ⟨Outcome.panicked, [], errOut, some (p, h)⟩
    | some b => ⟨Outcome.success, [hexEncode (sig.set 64 ((b + 27) % 256))], errOut, some (p, h)⟩

/-- Passphrase acquisition followed by the signing tail (message Action,
ethsign.go lines 362-393). -/
def msgFinish (env : Env) (pf : String) (w : Wallet) (acct : Account)
    (needPassphrase : Bool) (h : List Nat) (hubErrs : List String) : MsgResult :=
  match (acquirePassphrase env pf needPassphrase).2 with
  | Except.error e =>
    ⟨Outcome.exitError e, [], hubErrs ++ (acquirePassphrase env pf needPassphrase).1, none⟩
  | Except.ok p =>
    msgSign env w acct p h (hubErrs ++ (acquirePassphrase env pf needPassphrase).1)

/-- The message Action (ethsign.go lines 299-398): required flags, data
normalization and decoding, getWallets, the Scan loop, then msgFinish on the
signHash of the decoded data. -/
def msgAction (env : Env) (m : MsgOpts) : MsgResult :=
  match msgRequireds.find? (fun r => decide (MsgOpts.flag m r = "")) with
  | some r => ⟨Outcome.exitError (("ethsign: missing required parameter --") ++ r), [], [], none⟩
  | none =>
    match env.mustDecode (msgNormalize m.data) with
    | none => ⟨Outcome.panicked, [], [], none⟩
    | some d =>
      match scan (env.hexToAddress m.fromStr)
          (getWallets env.keystoreWallets env.ledgerHub env.trezorHub).1 with
      | Except.error e =>
        ⟨Outcome.exitError e, [],
          (getWallets env.keystoreWallets env.ledgerHub env.trezorHub).2, none⟩
      | Except.ok none =>
        ⟨Outcome.exitError ("ethsign: account not found"), [],
          (getWallets env.keystoreWallets env.ledgerHub env.trezorHub).2, none⟩
      | Except.ok (some (w, acct, needPassphrase)) =>
        msgFinish env m.passphraseFile w acct needPassphrase
          (signHash env.keccak d)
          (getWallets env.keystoreWallets env.ledgerHub env.trezorHub).2

/-- The inner hardware-wallet loop of the list-accounts Action (ethsign.go
lines 88-96): derive each path with pin chaining off, exit on a derivation
error, print one line per derived account.  First component is a ghost trace
of the paths passed to x.Derive, second the stdout lines, third the exit-error
message when derivation failed. -/
def listLedgerLoop (env : Env) (w : Wallet) : List Nat → List String × List String × Option String
  | [] => ([], [], none)
  | j :: js =>
    match w.derive (derivationPath j) false with
    | none =>
      ([derivationPath j], [],
        some (("ethsign: couldn") ++ tickStr ++ ("t use Ledger: needs to be in Ethereum app with browser support off")))
    | some z =>
      (derivationPath j :: (listLedgerLoop env w js).1,
        (env.addrHex z.address ++ (" ledger-") ++ derivationPath j) :: (listLedgerLoop env w js).2.1,
        (listLedgerLoop env w js).2.2)

/-- The wallet loop of the list-accounts Action (ethsign.go lines 81-98):
keystore wallets print one line per account, ledger wallets run the derivation
loop, any other scheme is skipped. -/
def listGo (env : Env) : List Wallet → List String × Option String
  | [] => ([], none)
  | w :: ws =>
    if decide (w.scheme = ("keystore")) then
      (w.accounts.map (fun y => env.addrHex y.address ++ (" keystore")) ++ (listGo env ws).1,
        (listGo env ws).2)
    else if decide (w.scheme = ("ledger")) then
      match (listLedgerLoop env w hwIndices).2.2 with
      | some e => ((listLedgerLoop env w hwIndices).2.1, some e)
      | none => ((listLedgerLoop env w hwIndices).2.1 ++ (listGo env ws).1, (listGo env ws).2)
    else
      listGo env ws

/-- The list-accounts Action (ethsign.go lines 77-101). -/
def listAccounts (env : Env) : List String × Option String :=
  listGo env (getWallets env.keystoreWallets env.ledgerHub env.trezorHub).1

/-- Env with the passphrase-file reader and the terminal reader replaced
(used to state that a code path consults neither). -/
def Env.withIO (env : Env) (rf : String → Option String) (tr : Option String) : Env :=
  ⟨env.keystoreWallets, env.ledgerHub, env.trezorHub, env.hexToAddress, env.addrHex,
    env.parseUint64, env.parseBig256, env.mustDecode, rf, tr, env.keccak,
    env.signTx, env.signHashWP, env.rlp⟩

/-- Concrete keystore account used by the witnesses. -/
def ksAcct : Account := ⟨7⟩

/-- Concrete keystore wallet holding ksAcct. -/
def ksWallet : Wallet := ⟨("keystore"), [ksAcct], fun _ _ => none⟩

/-- Concrete ledger wallet whose third derivation path yields address 9. -/
def ledgerWallet : Wallet :=
  ⟨("ledger"), [], fun p _ => if decide (p = derivationPath 2) then some ⟨9⟩ else some ⟨5⟩⟩

/-- Concrete ledger wallet matching address 9 already at the first path. -/
def firstMatchWallet : Wallet := ⟨("ledger"), [], fun _ _ => some ⟨9⟩⟩

/-- Concrete ledger wallet that never matches address 7. -/
def noMatchWallet : Wallet := ⟨("ledger"), [], fun _ _ => some ⟨5⟩⟩

/-- Concrete Trezor-hub wallet that holds, and would derive, address 7. -/
def trezorWallet : Wallet := ⟨("trezor"), [⟨7⟩], fun _ _ => some ⟨7⟩⟩

/-- A 65-byte signature with recovery byte 1. -/
def sig65 : List Nat := List.replicate 64 3 ++ [1]

/-- Witness environment whose keystore holds the requested account. -/
def envKS : Env :=
  ⟨[ksWallet], some [], some [],
    fun s => if decide (s = ("0x07")) then 7 else 9,
    fun _ => ("0xaddr"),
    fun _ => some 1, fun _ => some 2, fun _ => some [171],
    fun _ => some ("secret\n"), some ("typed"),
    fun l => 0 :: l,
    fun _ _ _ _ _ => some 42,
    fun _ _ _ _ => some sig65,
    fun n => [n, 1]⟩

/-- Witness environment whose Ledger hub derives the requested account. -/
def envLedger : Env :=
  ⟨[], some [ledgerWallet], some [],
    fun _ => 9,
    fun _ => ("0xaddr"),
    fun _ => some 1, fun _ => some 2, fun _ => some [171],
    fun _ => some ("secret\n"), some ("typed"),
    fun l => 0 :: l,
    fun _ _ _ _ _ => some 42,
    fun _ _ _ _ => some sig65,
    fun n => [n, 1]⟩

/-- Counterexample environment: the requested account sits on a connected
Trezor and on no other backend. -/
def envTrezor : Env :=
  ⟨[], some [], some [trezorWallet],
    fun _ => 7,
    fun _ => (""),
    fun _ => some 0, fun _ => some 0, fun _ => some [],
    fun _ => none, none,
    fun l => l,
    fun _ _ _ _ _ => some 0,
    fun _ _ _ _ => some sig65,
    fun _ => []⟩

/-- Transaction flags with a keystore-held from address and a passphrase file. -/
def txOptsKS : TxOpts :=
  ⟨false, ("0x07"), ("pf"), ("1"), ("0x09"), ("1"), ("1"), ("1"), ("1"), ("")⟩

/-- Transaction flags with a keystore-held from address and no passphrase file. -/
def txOptsTerm : TxOpts :=
  ⟨false, ("0x07"), (""), ("1"), ("0x09"), ("1"), ("1"), ("1"), ("1"), ("")⟩

/-- Transaction flags with an empty nonce. -/
def txOptsMissing : TxOpts :=
  ⟨false, ("0x07"), ("pf"), ("1"), ("0x09"), (""), ("1"), ("1"), ("1"), ("")⟩

/-- Transaction flags giving both to and create. -/
def txOptsBoth : TxOpts :=
  ⟨true, ("0x07"), ("pf"), ("1"), ("0x09"), ("1"), ("1"), ("1"), ("1"), ("0x00")⟩

/-- Transaction flags giving create without data. -/
def txOptsCreateNoData : TxOpts :=
  ⟨true, ("0x07"), ("pf"), ("1"), (""), ("1"), ("1"), ("1"), ("1"), ("")⟩

/-- Transaction flags for a valid contract creation. -/
def txOptsCreate : TxOpts :=
  ⟨true, ("0x07"), ("pf"), ("1"), (""), ("1"), ("1"), ("1"), ("1"), ("0x00")⟩

/-- Transaction flags used against the Trezor-only environment. -/
def txOptsTrezor : TxOpts :=
  ⟨false, ("0xabc"), (""), ("1"), ("0xdef"), ("1"), ("1"), ("1"), ("1"), ("")⟩

/-- Message flags with a keystore-held from address and a passphrase file. -/
def msgOptsKS : MsgOpts := ⟨("0x07"), ("pf"), ("00")⟩

/-- Message flags with a keystore-held from address and no passphrase file. -/
def msgOptsTerm : MsgOpts := ⟨("0x07"), (""), ("00")⟩

/-- Message flags with an empty from address. -/
def msgOptsMissing : MsgOpts := ⟨(""), ("pf"), ("00")⟩

/-- Message flags used against the Trezor-only environment. -/
def msgOptsTrezor : MsgOpts := ⟨("0xabc"), (""), ("00")⟩

/-- Message flags with empty data, for the normalization counterexample. -/
def msgOptsEmptyData : MsgOpts := ⟨("0xabc"), (""), ("")⟩

/-- Message flags with data 0x, for the normalization counterexample. -/
def msgOpts0xData : MsgOpts := ⟨("0xabc"), (""), ("0x")⟩

/-- Byte extraction distributes over Go string concatenation. -/
theorem strBytes_append (a b : String) : strBytes (a ++ b) = strBytes a ++ strBytes b := by
  simp [strBytes, String.data_append]

/-- Prepending 0x never yields the empty string. -/
theorem append0x_ne (s : String) : ¬ ("0x") ++ s = "" := by
  intro h
  have h2 := congrArg String.data h
  rw [String.data_append] at h2
  exact absurd (List.append_eq_nil.mp h2).1 (by decide)

/-- A string of the form 0x-then-suffix starts with 0x. -/
theorem hasPrefix0x_append (s : String) : goHasPrefix0x (("0x") ++ s) = true := by
  have hd : (("0x" : String)).data = [Char.ofNat 48, Char.ofNat 120] := by decide
  simp [goHasPrefix0x, String.data_append, hd]

/-- Normalization prepends 0x when the prefix is absent. -/
theorem msgNormalize_absent (s : String) (h : goHasPrefix0x s = false) :
    msgNormalize s = ("0x") ++ s := by
  simp [msgNormalize, h]

/-- Normalization keeps a string that already starts with 0x. -/
theorem msgNormalize_present (s : String) :
    msgNormalize (("0x") ++ s) = ("0x") ++ s := by
  simp [msgNormalize, hasPrefix0x_append]

/-- The Scan loop does not examine a wallet whose scheme is neither keystore
nor ledger. -/
theorem scan_skip (a : Address) (w : Wallet) (ws : List Wallet)
    (h1 : ¬ w.scheme = ("keystore")) (h2 : ¬ w.scheme = ("ledger")) :
    scan a (w :: ws) = scan a ws := by
  simp [scan, h1, h2]

/-- A Scan match that keeps needPassphrase came from a keystore wallet. -/
theorem scan_match_keystore (a : Address) (w : Wallet) (acct : Account) :
    ∀ ws : List Wallet, scan a ws = Except.ok (some (w, acct, true)) →
      w.scheme = ("keystore") := by
  intro ws
  induction ws with
  | nil => intro h; simp [scan] at h
  | cons w2 ws ih =>
    intro h
    by_cases hk : w2.scheme = ("keystore")
    · cases hf : w2.accounts.find? (fun y => decide (y.address = a)) with
      | none => simp [scan, hk, hf] at h; exact ih h
      | some y =>
        simp [scan, hk, hf] at h
        rw [← h.1]
        exact hk
    · by_cases hl : w2.scheme = ("ledger")
      · cases hd : (deriveSearch w2 a hwIndices).2 with
        | error e => simp [scan, hk, hl, hd] at h
        | ok v =>
          cases v with
          | none => simp [scan, hk, hl, hd] at h; exact ih h
          | some y => simp [scan, hk, hl, hd] at h
      · simp [scan, hk, hl] at h
        exact ih h

/-- A Scan match that clears needPassphrase came from a ledger wallet. -/
theorem scan_match_ledger (a : Address) (w : Wallet) (acct : Account) :
    ∀ ws : List Wallet, scan a ws = Except.ok (some (w, acct, false)) →
      w.scheme = ("ledger") := by
  intro ws
  induction ws with
  | nil => intro h; simp [scan] at h
  | cons w2 ws ih =>
    intro h
    by_cases hk : w2.scheme = ("keystore")
    · cases hf : w2.accounts.find? (fun y => decide (y.address = a)) with
      | none => simp [scan, hk, hf] at h; exact ih h
      | some y => simp [scan, hk, hf] at h
    · by_cases hl : w2.scheme = ("ledger")
      · cases hd : (deriveSearch w2 a hwIndices).2 with
        | error e => simp [scan, hk, hl, hd] at h
        | ok v =>
          cases v with
          | none => simp [scan, hk, hl, hd] at h; exact ih h
          | some y =>
            simp [scan, hk, hl, hd] at h
            rw [← h.1]
            exact hl
      · simp [scan, hk, hl] at h
        exact ih h

/-- The paths queried by the Scan derivation loop are an initial segment of
the path list of the given indices. -/
theorem deriveSearch_paths_isPrefix (w : Wallet) (a : Address) :
    ∀ js : List Nat, (deriveSearch w a js).1 <+: js.map derivationPath := by
  intro js
  induction js with
  | nil => simp [deriveSearch]
  | cons j js ih =>
    cases hd : w.derive (derivationPath j) true with
    | none =>
      simp [deriveSearch, hd]
    | some y =>
      by_cases hy : y.address = a
      · simp [deriveSearch, hd, hy]
      · simp [deriveSearch, hd, hy]
        exact ih

/-- When the Scan derivation loop finds no match and no error, it queried
every path of the given indices. -/
theorem deriveSearch_paths_complete (w : Wallet) (a : Address) :
    ∀ js : List Nat, (deriveSearch w a js).2 = Except.ok none →
      (deriveSearch w a js).1 = js.map derivationPath := by
  intro js
  induction js with
  | nil => intro _; simp [deriveSearch]
  | cons j js ih =>
    intro h
    cases hd : w.derive (derivationPath j) true with
    | none => simp [deriveSearch, hd] at h
    | some y =>
      by_cases hy : y.address = a
      · simp [deriveSearch, hd, hy] at h
      · simp [deriveSearch, hd, hy] at h ⊢
        exact ih h

/-- The paths queried by the list-accounts derivation loop are an initial
segment of the path list of the given indices. -/
theorem listLedgerLoop_paths_isPrefix (env : Env) (w : Wallet) :
    ∀ js : List Nat, (listLedgerLoop env w js).1 <+: js.map derivationPath := by
  intro js
  induction js with
  | nil => simp [listLedgerLoop]
  | cons j js ih =>
    cases hd : w.derive (derivationPath j) false with
    | none =>
      simp [listLedgerLoop, hd]
    | some z =>
      simp [listLedgerLoop, hd]
      exact ih

/-- When the list-accounts derivation loop reports no error, it queried every
path of the given indices. -/
theorem listLedgerLoop_paths_complete (env : Env) (w : Wallet) :
    ∀ js : List Nat, (listLedgerLoop env w js).2.2 = none →
      (listLedgerLoop env w js).1 = js.map derivationPath := by
  intro js
  induction js with
  | nil => intro _; simp [listLedgerLoop]
  | cons j js ih =>
    intro h
    cases hd : w.derive (derivationPath j) false with
    | none => simp [listLedgerLoop, hd] at h
    | some z =>
      simp [listLedgerLoop, hd] at h ⊢
      exact ih h

/-- Unfolding of the transaction Action down to txFinish on the success path
of validation, parsing, and the Scan loop. -/
theorem txAction_path (env : Env) (t : TxOpts) (w : Wallet) (acct : Account) (np : Bool)
    (nonce : Nat) (gasPrice gasLimit value chainID : Int) (d : List Nat)
    (h1 : txRequireds.find? (fun r => decide (TxOpts.flag t r = "")) = none)
    (h2 : ((decide (t.toStr = "") && !t.create) || (!decide (t.toStr = "") && t.create)) = false)
    (h3 : (t.create && decide (t.data = "")) = false)
    (h4 : env.parseUint64 t.nonce = some nonce)
    (h5 : env.parseBig256 t.gasPrice = some gasPrice)
    (h6 : env.parseBig256 t.gasLimit = some gasLimit)
    (h7 : env.parseBig256 t.value = some value)
    (h8 : env.parseBig256 t.chainId = some chainID)
    (h9 : env.mustDecode (txDataDefault t.data) = some d)
    (h10 : scan (env.hexToAddress t.fromStr)
        (getWallets env.keystoreWallets env.ledgerHub env.trezorHub).1
        = Except.ok (some (w, acct, np))) :
    txAction env t = txFinish env t.passphraseFile w acct np
      (txBuild t.create nonce (env.hexToAddress t.toStr) value gasLimit gasPrice d)
      chainID (getWallets env.keystoreWallets env.ledgerHub env.trezorHub).2 := by
  unfold txAction
  rw [h1, h2, h3, h4, h5, h6, h7, h8, h9, h10]
  rfl

/-- Unfolding of the message Action down to msgFinish on the success path of
validation, decoding, and the Scan loop. -/
theorem msgAction_path (env : Env) (m : MsgOpts) (w : Wallet) (acct : Account) (np : Bool)
    (d : List Nat)
    (k1 : msgRequireds.find? (fun r => decide (MsgOpts.flag m r = "")) = none)
    (k2 : env.mustDecode (msgNormalize m.data) = some d)
    (k3 : scan (env.hexToAddress m.fromStr)
        (getWallets env.keystoreWallets env.ledgerHub env.trezorHub).1
        = Except.ok (some (w, acct, np))) :
    msgAction env m = msgFinish env m.passphraseFile w acct np
      (signHash env.keccak d)
      (getWallets env.keystoreWallets env.ledgerHub env.trezorHub).2 := by
  unfold msgAction
  rw [k1, k2, k3]

/-- C2: each subcommand enforces its required-flag set before doing any other
work: when some flag of the requireds list is empty, the Action exits with the
missing-parameter error naming an empty required flag, with empty stdout and
stderr, and without consulting any backend or signing (the result is this
constant for every environment). -/
theorem required_flags_enforced (env : Env) (t : TxOpts) (m : MsgOpts) (r1 r2 : String)
    (h1 : txRequireds.find? (fun r => decide (TxOpts.flag t r = "")) = some r1)
    (h2 : msgRequireds.find? (fun r => decide (MsgOpts.flag m r = "")) = some r2) :
    r1 ∈ txRequireds ∧ TxOpts.flag t r1 = "" ∧
    txRequireds = [("nonce"), ("value"), ("gas-price"), ("gas-limit"), ("chain-id"), ("from")] ∧
    txAction env t =
      ⟨Outcome.exitError (("ethsign: missing required parameter --") ++ r1), [], [], none⟩ ∧
    r2 ∈ msgRequireds ∧ MsgOpts.flag m r2 = "" ∧
    msgRequireds = [("from"), ("data")] ∧
    msgAction env m =
      ⟨Outcome.exitError (("ethsign: missing required parameter --") ++ r2), [], [], none⟩ := by
  refine ⟨List.mem_of_find?_eq_some h1, by simpa using List.find?_some h1, rfl, ?_,
    List.mem_of_find?_eq_some h2, by simpa using List.find?_some h2, rfl, ?_⟩
  · unfold txAction
    rw [h1]
  · unfold msgAction
    rw [h2]

/-- Witness for C2 at a concrete environment and flag records. -/
theorem required_flags_enforced_witness :
    ("nonce") ∈ txRequireds ∧ TxOpts.flag txOptsMissing ("nonce") = "" ∧
    txRequireds = [("nonce"), ("value"), ("gas-price"), ("gas-limit"), ("chain-id"), ("from")] ∧
    txAction envTrezor txOptsMissing =
      ⟨Outcome.exitError (("ethsign: missing required parameter --") ++ ("nonce")), [], [], none⟩ ∧
    ("from") ∈ msgRequireds ∧ MsgOpts.flag msgOptsMissing ("from") = "" ∧
    msgRequireds = [("from"), ("data")] ∧
    msgAction envTrezor msgOptsMissing =
      ⟨Outcome.exitError (("ethsign: missing required parameter --") ++ ("from")), [], [], none⟩ :=
  required_flags_enforced envTrezor txOptsMissing msgOptsMissing ("nonce") ("from") rfl rfl

/-- C8: the hash signed by the message subcommand is keccak256 of the
concatenation of the fixed header byte 0x19 and the text Ethereum Signed
Message with a newline, then the decimal representation of the data length,
then the data itself. -/
theorem message_hash_format (k : List Nat → List Nat) (d : List Nat) :
    signHash k d = k (strBytes msgHeaderStr ++ strBytes (Nat.repr d.length) ++ d) ∧
    strBytes msgHeaderStr =
      [25, 69, 116, 104, 101, 114, 101, 117, 109, 32, 83, 105, 103, 110, 101, 100,
        32, 77, 101, 115, 115, 97, 103, 101, 58, 10] := by
  constructor
  · unfold signHash
    rw [strBytes_append]
  · decide

/-- C10 counterexample: at the empty data string the two invocations differ:
empty --data trips the required-flag check while --data 0x proceeds to the
account scan. -/
theorem message_data_norm_counterexample :
    msgAction envTrezor msgOptsEmptyData =
      ⟨Outcome.exitError ("ethsign: missing required parameter --data"), [], [], none⟩ ∧
    msgAction envTrezor msgOpts0xData =
      ⟨Outcome.exitError ("ethsign: account not found"), [], [], none⟩ ∧
    ¬ msgAction envTrezor msgOptsEmptyData = msgAction envTrezor msgOpts0xData := by
  refine ⟨rfl, rfl, ?_⟩
  decide

/-- C10 (amended): for every nonempty string s that does not start with 0x,
running the message subcommand with data s behaves identically to running it
with data 0x-then-s: the prefix is prepended before decoding, so the whole
invocation is the same function of the environment. -/
theorem message_data_normalization_amended (env : Env) (m : MsgOpts) (s : String)
    (hne : ¬ s = "") (hp : goHasPrefix0x s = false) :
    msgAction env (MsgOpts.mk m.fromStr m.passphraseFile s)
      = msgAction env (MsgOpts.mk m.fromStr m.passphraseFile (("0x") ++ s)) := by
  have hdata : ¬ ("0x") ++ s = "" := append0x_ne s
  by_cases hf : m.fromStr = ""
  · have e1 : msgRequireds.find?
        (fun r => decide (MsgOpts.flag (MsgOpts.mk m.fromStr m.passphraseFile s) r = ""))
        = some ("from") := by
      simp [msgRequireds, List.find?, MsgOpts.flag, hf]
    have e2 : msgRequireds.find?
        (fun r => decide (MsgOpts.flag (MsgOpts.mk m.fromStr m.passphraseFile (("0x") ++ s)) r = ""))
        = some ("from") := by
      simp [msgRequireds, List.find?, MsgOpts.flag, hf]
    unfold msgAction
    rw [e1, e2]
  · have e1 : msgRequireds.find?
        (fun r => decide (MsgOpts.flag (MsgOpts.mk m.fromStr m.passphraseFile s) r = ""))
        = none := by
      simp [msgRequireds, List.find?, MsgOpts.flag, hf, hne]
    have e2 : msgRequireds.find?
        (fun r => decide (MsgOpts.flag (MsgOpts.mk m.fromStr m.passphraseFile (("0x") ++ s)) r = ""))
        = none := by
      simp [msgRequireds, List.find?, MsgOpts.flag, hf, hdata]
    unfold msgAction
    rw [e1, e2, msgNormalize_absent s hp, msgNormalize_present]

/-- Witness for C10 (amended) at a concrete nonempty data string. -/
theorem message_data_normalization_amended_witness :
    msgAction envTrezor (MsgOpts.mk ("0xabc") ("") ("00"))
      = msgAction envTrezor (MsgOpts.mk ("0xabc") ("") (("0x") ++ ("00"))) :=
  message_data_normalization_amended envTrezor msgOptsTrezor ("00") (by decide) (by decide)

/-- C3 counterexample: searching a hardware wallet whose first derivation path
already matches the requested address derives exactly one path, not four. -/
theorem derivation_paths_counterexample :
    (deriveSearch firstMatchWallet 9 hwIndices).1 = [derivationPath 0] ∧
    ¬ (deriveSearch firstMatchWallet 9 hwIndices).1 = hwIndices.map derivationPath := by
  refine ⟨rfl, ?_⟩
  decide

/-- C3 (amended): both derivation loops query path strings drawn in order from
the fixed list of the four indices 0, 1, 2, 3 and no others; the trace is an
initial segment of that list, and it is the whole list whenever the search
falls through without a match (respectively the listing sees no derivation
error). -/
theorem derivation_paths_amended (env : Env) (w : Wallet) (a : Address) :
    (deriveSearch w a hwIndices).1 <+: hwIndices.map derivationPath ∧
    ((deriveSearch w a hwIndices).2 = Except.ok none →
      (deriveSearch w a hwIndices).1 = hwIndices.map derivationPath) ∧
    (listLedgerLoop env w hwIndices).1 <+: hwIndices.map derivationPath ∧
    ((listLedgerLoop env w hwIndices).2.2 = none →
      (listLedgerLoop env w hwIndices).1 = hwIndices.map derivationPath) ∧
    hwIndices.map derivationPath =
      [derivationPath 0, derivationPath 1, derivationPath 2, derivationPath 3] :=
  ⟨deriveSearch_paths_isPrefix w a hwIndices,
    deriveSearch_paths_complete w a hwIndices,
    listLedgerLoop_paths_isPrefix env w hwIndices,
    listLedgerLoop_paths_complete env w hwIndices,
    rfl⟩

/-- Witness for C3 (amended) at a concrete non-matching hardware wallet. -/
theorem derivation_paths_amended_witness :
    ((deriveSearch noMatchWallet 7 hwIndices).1 <+: hwIndices.map derivationPath) ∧
    (deriveSearch noMatchWallet 7 hwIndices).1 = hwIndices.map derivationPath ∧
    (listLedgerLoop envTrezor noMatchWallet hwIndices).1 = hwIndices.map derivationPath :=
  ⟨(derivation_paths_amended envTrezor noMatchWallet 7).1,
    (derivation_paths_amended envTrezor noMatchWallet 7).2.1 rfl,
    (derivation_paths_amended envTrezor noMatchWallet 7).2.2.2.1 rfl⟩

/-- C1 counterexample: the requested account sits on a connected Trezor (the
wallet both holds it and would derive it), the wallet is in the iterated list,
yet both subcommands exit with the account-not-found error without signing. -/
theorem account_locator_trezor_counterexample :
    trezorWallet.scheme = ("trezor") ∧
    (⟨7⟩ : Account) ∈ trezorWallet.accounts ∧
    trezorWallet.derive (derivationPath 0) true = some ⟨7⟩ ∧
    envTrezor.hexToAddress txOptsTrezor.fromStr = 7 ∧
    trezorWallet ∈ (getWallets envTrezor.keystoreWallets envTrezor.ledgerHub envTrezor.trezorHub).1 ∧
    txAction envTrezor txOptsTrezor =
      ⟨Outcome.exitError ("ethsign: account not found"), [], [], none⟩ ∧
    msgAction envTrezor msgOptsTrezor =
      ⟨Outcome.exitError ("ethsign: account not found"), [], [], none⟩ := by
  refine ⟨rfl, by decide, rfl, rfl, ?_, rfl, rfl⟩
  exact List.mem_singleton.mpr rfl

/-- C1 (amended): the wallet list handed to the Scan loop does include every
wallet of the Trezor hub, but the loop examines only wallets whose scheme is
keystore or ledger; when the scan falls through, both subcommands exit with
the account-not-found error, print nothing to stdout, and never call a
signing function. -/
theorem account_locator_amended (env : Env) (t : TxOpts) (m : MsgOpts)
    (a : Address) (w : Wallet) (ws ks tws : List Wallet) (lh : Option (List Wallet))
    (nonce : Nat) (gasPrice gasLimit value chainID : Int) (d d2 : List Nat)
    (h1 : txRequireds.find? (fun r => decide (TxOpts.flag t r = "")) = none)
    (h2 : ((decide (t.toStr = "") && !t.create) || (!decide (t.toStr = "") && t.create)) = false)
    (h3 : (t.create && decide (t.data = "")) = false)
    (h4 : env.parseUint64 t.nonce = some nonce)
    (h5 : env.parseBig256 t.gasPrice = some gasPrice)
    (h6 : env.parseBig256 t.gasLimit = some gasLimit)
    (h7 : env.parseBig256 t.value = some value)
    (h8 : env.parseBig256 t.chainId = some chainID)
    (h9 : env.mustDecode (txDataDefault t.data) = some d)
    (h10 : scan (env.hexToAddress t.fromStr)
        (getWallets env.keystoreWallets env.ledgerHub env.trezorHub).1 = Except.ok none)
    (k1 : msgRequireds.find? (fun r => decide (MsgOpts.flag m r = "")) = none)
    (k2 : env.mustDecode (msgNormalize m.data) = some d2)
    (k3 : scan (env.hexToAddress m.fromStr)
        (getWallets env.keystoreWallets env.ledgerHub env.trezorHub).1 = Except.ok none) :
    (w ∈ tws → w ∈ (getWallets ks lh (some tws)).1) ∧
    (¬ w.scheme = ("keystore") → ¬ w.scheme = ("ledger") → scan a (w :: ws) = scan a ws) ∧
    txAction env t =
      ⟨Outcome.exitError ("ethsign: account not found"), [],
        (getWallets env.keystoreWallets env.ledgerHub env.trezorHub).2, none⟩ ∧
    msgAction env m =
      ⟨Outcome.exitError ("ethsign: account not found"), [],
        (getWallets env.keystoreWallets env.ledgerHub env.trezorHub).2, none⟩ := by
  refine ⟨?_, ?_, ?_, ?_⟩
  · intro hw
    cases lh <;> simp [getWallets, hw]
  · intro hk hl
    exact scan_skip a w ws hk hl
  · unfold txAction
    rw [h1, h2, h3, h4, h5, h6, h7, h8, h9, h10]
    rfl
  · unfold msgAction
    rw [k1, k2, k3]

/-- Witness for C1 (amended) at the concrete Trezor-only environment. -/
theorem account_locator_amended_witness :
    trezorWallet ∈ (getWallets ([]) (some []) (some [trezorWallet])).1 ∧
    scan 7 (trezorWallet :: []) = scan 7 ([]) ∧
    txAction envTrezor txOptsTrezor =
      ⟨Outcome.exitError ("ethsign: account not found"), [], [], none⟩ ∧
    msgAction envTrezor msgOptsTrezor =
      ⟨Outcome.exitError ("ethsign: account not found"), [], [], none⟩ := by
  have h := account_locator_amended envTrezor txOptsTrezor msgOptsTrezor 7 trezorWallet
    [] [] [trezorWallet] (some []) 0 0 0 0 0 [] []
    rfl rfl rfl rfl rfl rfl rfl rfl rfl rfl rfl rfl rfl
  exact ⟨h.1 (List.mem_singleton.mpr rfl), h.2.1 (by decide) (by decide), h.2.2.1, h.2.2.2⟩

/-- C5: on every successful transaction invocation, the signed transaction
returned by the wallet is RLP-encoded, then hex-encoded with a 0x prefix, and
printed as the only line on stdout. -/
theorem transaction_output_encoding (env : Env) (t : TxOpts) (w : Wallet) (acct : Account)
    (np : Bool) (nonce : Nat) (gasPrice gasLimit value chainID : Int) (d : List Nat)
    (errOut : List String) (p : String) (signed : SignedTx)
    (h1 : txRequireds.find? (fun r => decide (TxOpts.flag t r = "")) = none)
    (h2 : ((decide (t.toStr = "") && !t.create) || (!decide (t.toStr = "") && t.create)) = false)
    (h3 : (t.create && decide (t.data = "")) = false)
    (h4 : env.parseUint64 t.nonce = some nonce)
    (h5 : env.parseBig256 t.gasPrice = some gasPrice)
    (h6 : env.parseBig256 t.gasLimit = some gasLimit)
    (h7 : env.parseBig256 t.value = some value)
    (h8 : env.parseBig256 t.chainId = some chainID)
    (h9 : env.mustDecode (txDataDefault t.data) = some d)
    (h10 : scan (env.hexToAddress t.fromStr)
        (getWallets env.keystoreWallets env.ledgerHub env.trezorHub).1
        = Except.ok (some (w, acct, np)))
    (h11 : acquirePassphrase env t.passphraseFile np = (errOut, Except.ok p))
    (h12 : env.signTx w acct p
        (txBuild t.create nonce (env.hexToAddress t.toStr) value gasLimit gasPrice d) chainID
        = some signed) :
    txAction env t =
      ⟨Outcome.success, [hexEncode (env.rlp signed)],
        (getWallets env.keystoreWallets env.ledgerHub env.trezorHub).2 ++ errOut,
        some (p, txBuild t.create nonce (env.hexToAddress t.toStr) value gasLimit gasPrice d,
          chainID)⟩ ∧
    goHasPrefix0x (hexEncode (env.rlp signed)) = true ∧
    hexEncode (env.rlp signed) = ("0x") ++ hexDigits (env.rlp signed) := by
  refine ⟨?_, hasPrefix0x_append _, rfl⟩
  rw [txAction_path env t w acct np nonce gasPrice gasLimit value chainID d
    h1 h2 h3 h4 h5 h6 h7 h8 h9 h10]
  simp only [txFinish, h11]
  simp only [txSign, h12]

/-- Witness for C5 at a concrete keystore-backed environment. -/
theorem transaction_output_encoding_witness :
    txAction envKS txOptsKS =
      ⟨Outcome.success, [hexEncode (envKS.rlp 42)],
        (getWallets envKS.keystoreWallets envKS.ledgerHub envKS.trezorHub).2 ++ [],
        some (trimNewline ("secret\n"),
          txBuild false 1 (envKS.hexToAddress txOptsKS.toStr) 2 2 2 [171], 2)⟩ ∧
    goHasPrefix0x (hexEncode (envKS.rlp 42)) = true ∧
    hexEncode (envKS.rlp 42) = ("0x") ++ hexDigits (envKS.rlp 42) :=
  transaction_output_encoding envKS txOptsKS ksWallet ksAcct true 1 2 2 2 2 [171] []
    (trimNewline ("secret\n")) 42 rfl rfl rfl rfl rfl rfl rfl rfl rfl rfl rfl rfl

/-- C6: after the required-flag check, the transaction subcommand exits with
the need-exactly-one error unless exactly one of the to flag and the create
flag is given, exits with the need-data error when create comes without data,
and otherwise hands the signing call a contract creation exactly when create
is set and an ordinary transaction to the to address when not. -/
theorem tx_to_create_validation (env : Env) (t : TxOpts)
    (h1 : txRequireds.find? (fun r => decide (TxOpts.flag t r = "")) = none) :
    (((decide (t.toStr = "") && !t.create) || (!decide (t.toStr = "") && t.create)) = true →
      txAction env t =
        ⟨Outcome.exitError ("ethsign: need exactly one of --to or --create"), [], [], none⟩) ∧
    (((decide (t.toStr = "") && !t.create) || (!decide (t.toStr = "") && t.create)) = false →
      (t.create && decide (t.data = "")) = true →
      txAction env t =
        ⟨Outcome.exitError ("ethsign: need --data when doing --create"), [], [], none⟩) ∧
    (∀ (w : Wallet) (acct : Account) (np : Bool) (nonce : Nat)
        (gasPrice gasLimit value chainID : Int) (d : List Nat)
        (errOut : List String) (p : String),
      ((decide (t.toStr = "") && !t.create) || (!decide (t.toStr = "") && t.create)) = false →
      (t.create && decide (t.data = "")) = false →
      env.parseUint64 t.nonce = some nonce →
      env.parseBig256 t.gasPrice = some gasPrice →
      env.parseBig256 t.gasLimit = some gasLimit →
      env.parseBig256 t.value = some value →
      env.parseBig256 t.chainId = some chainID →
      env.mustDecode (txDataDefault t.data) = some d →
      scan (env.hexToAddress t.fromStr)
        (getWallets env.keystoreWallets env.ledgerHub env.trezorHub).1
        = Except.ok (some (w, acct, np)) →
      acquirePassphrase env t.passphraseFile np = (errOut, Except.ok p) →
      (txAction env t).signedWith =
        some (p, txBuild t.create nonce (env.hexToAddress t.toStr) value gasLimit gasPrice d,
          chainID)) ∧
    (∀ (nonce : Nat) (toAddr : Address) (value gasLimit gasPrice : Int) (d : List Nat),
      txBuild true nonce toAddr value gasLimit gasPrice d
        = Tx.creation nonce value gasLimit gasPrice d ∧
      txBuild false nonce toAddr value gasLimit gasPrice d
        = Tx.call nonce toAddr value gasLimit gasPrice d) := by
  refine ⟨?_, ?_, ?_, fun _ _ _ _ _ _ => ⟨rfl, rfl⟩⟩
  · intro hb
    unfold txAction
    rw [h1, hb]
    rfl
  · intro hb hc
    unfold txAction
    rw [h1, hb, hc]
    rfl
  · intro w acct np nonce gasPrice gasLimit value chainID d errOut p
      hb hc h4 h5 h6 h7 h8 h9 h10 h11
    rw [txAction_path env t w acct np nonce gasPrice gasLimit value chainID d
      h1 hb hc h4 h5 h6 h7 h8 h9 h10]
    simp only [txFinish, h11]
    unfold txSign
    cases hs : env.signTx w acct p
        (txBuild t.create nonce (env.hexToAddress t.toStr) value gasLimit gasPrice d) chainID with
    | none => simp [hs]
    | some s => simp [hs]

/-- Witness for C6 at concrete flag records for all three branches. -/
theorem tx_to_create_validation_witness :
    txAction envKS txOptsBoth =
      ⟨Outcome.exitError ("ethsign: need exactly one of --to or --create"), [], [], none⟩ ∧
    txAction envKS txOptsCreateNoData =
      ⟨Outcome.exitError ("ethsign: need --data when doing --create"), [], [], none⟩ ∧
    (txAction envKS txOptsCreate).signedWith =
      some (trimNewline ("secret\n"),
        txBuild true 1 (envKS.hexToAddress txOptsCreate.toStr) 2 2 2 [171], 2) ∧
    txBuild true 1 9 2 2 2 [171] = Tx.creation 1 2 2 2 [171] ∧
    txBuild false 1 9 2 2 2 [171] = Tx.call 1 9 2 2 2 [171] := by
  have hA := tx_to_create_validation envKS txOptsBoth rfl
  have hB := tx_to_create_validation envKS txOptsCreateNoData rfl
  have hC := tx_to_create_validation envKS txOptsCreate rfl
  exact ⟨hA.1 rfl, hB.2.1 rfl rfl,
    hC.2.2.1 ksWallet ksAcct true 1 2 2 2 2 [171] [] (trimNewline ("secret\n"))
      rfl rfl rfl rfl rfl rfl rfl rfl rfl rfl,
    (hC.2.2.2 1 9 2 2 2 [171]).1, (hC.2.2.2 1 9 2 2 2 [171]).2⟩

/-- C4: when the matched account resides in the keystore (the scan kept
needPassphrase), the passphrase is read from the passphrase file when that
flag is non-empty, exiting with the read-failure error when the read fails,
and otherwise from the interactive terminal prompt written to stderr; the
acquired passphrase (with one trailing newline stripped in the file case) is
exactly what the signing call receives, for the transaction and the message
subcommand alike. -/
theorem passphrase_acquisition_keystore (env : Env) (t : TxOpts) (m : MsgOpts)
    (w w2 : Wallet) (acct acct2 : Account)
    (nonce : Nat) (gasPrice gasLimit value chainID : Int) (d d2 : List Nat)
    (h1 : txRequireds.find? (fun r => decide (TxOpts.flag t r = "")) = none)
    (h2 : ((decide (t.toStr = "") && !t.create) || (!decide (t.toStr = "") && t.create)) = false)
    (h3 : (t.create && decide (t.data = "")) = false)
    (h4 : env.parseUint64 t.nonce = some nonce)
    (h5 : env.parseBig256 t.gasPrice = some gasPrice)
    (h6 : env.parseBig256 t.gasLimit = some gasLimit)
    (h7 : env.parseBig256 t.value = some value)
    (h8 : env.parseBig256 t.chainId = some chainID)
    (h9 : env.mustDecode (txDataDefault t.data) = some d)
    (h10 : scan (env.hexToAddress t.fromStr)
        (getWallets env.keystoreWallets env.ledgerHub env.trezorHub).1
        = Except.ok (some (w, acct, true)))
    (k1 : msgRequireds.find? (fun r => decide (MsgOpts.flag m r = "")) = none)
    (k2 : env.mustDecode (msgNormalize m.data) = some d2)
    (k3 : scan (env.hexToAddress m.fromStr)
        (getWallets env.keystoreWallets env.ledgerHub env.trezorHub).1
        = Except.ok (some (w2, acct2, true))) :
    w.scheme = ("keystore") ∧ w2.scheme = ("keystore") ∧
    (¬ t.passphraseFile = "" → env.readFile t.passphraseFile = none →
      txAction env t =
        ⟨Outcome.exitError ("ethsign: failed to read passphrase file"), [],
          (getWallets env.keystoreWallets env.ledgerHub env.trezorHub).2, none⟩) ∧
    (∀ content, ¬ t.passphraseFile = "" → env.readFile t.passphraseFile = some content →
      txAction env t = txSign env w acct (trimNewline content)
        (txBuild t.create nonce (env.hexToAddress t.toStr) value gasLimit gasPrice d) chainID
        (getWallets env.keystoreWallets env.ledgerHub env.trezorHub).2) ∧
    (t.passphraseFile = "" → env.termRead = none →
      txAction env t =
        ⟨Outcome.exitError ("ethsign: failed to read passphrase"), [],
          (getWallets env.keystoreWallets env.ledgerHub env.trezorHub).2 ++ [promptMsg], none⟩) ∧
    (∀ pw, t.passphraseFile = "" → env.termRead = some pw →
      txAction env t = txSign env w acct pw
        (txBuild t.create nonce (env.hexToAddress t.toStr) value gasLimit gasPrice d) chainID
        ((getWallets env.keystoreWallets env.ledgerHub env.trezorHub).2 ++ [promptMsg])) ∧
    (¬ m.passphraseFile = "" → env.readFile m.passphraseFile = none →
      msgAction env m =
        ⟨Outcome.exitError ("ethsign: failed to read passphrase file"), [],
          (getWallets env.keystoreWallets env.ledgerHub env.trezorHub).2, none⟩) ∧
    (∀ content, ¬ m.passphraseFile = "" → env.readFile m.passphraseFile = some content →
      msgAction env m = msgSign env w2 acct2 (trimNewline content) (signHash env.keccak d2)
        (getWallets env.keystoreWallets env.ledgerHub env.trezorHub).2) ∧
    (m.passphraseFile = "" → env.termRead = none →
      msgAction env m =
        ⟨Outcome.exitError ("ethsign: failed to read passphrase"), [],
          (getWallets env.keystoreWallets env.ledgerHub env.trezorHub).2 ++ [promptMsg], none⟩) ∧
    (∀ pw, m.passphraseFile = "" → env.termRead = some pw →
      msgAction env m = msgSign env w2 acct2 pw (signHash env.keccak d2)
        ((getWallets env.keystoreWallets env.ledgerHub env.trezorHub).2 ++ [promptMsg])) := by
  refine ⟨scan_match_keystore _ _ _ _ h10, scan_match_keystore _ _ _ _ k3,
    ?_, ?_, ?_, ?_, ?_, ?_, ?_, ?_⟩
  · intro hpf hrf
    rw [txAction_path env t w acct true nonce gasPrice gasLimit value chainID d
      h1 h2 h3 h4 h5 h6 h7 h8 h9 h10]
    simp [txFinish, acquirePassphrase, hpf, hrf]
  · intro content hpf hrf
    rw [txAction_path env t w acct true nonce gasPrice gasLimit value chainID d
      h1 h2 h3 h4 h5 h6 h7 h8 h9 h10]
    simp [txFinish, acquirePassphrase, hpf, hrf]
  · intro hpf htr
    rw [txAction_path env t w acct true nonce gasPrice gasLimit value chainID d
      h1 h2 h3 h4 h5 h6 h7 h8 h9 h10]
    simp [txFinish, acquirePassphrase, hpf, htr]
  · intro pw hpf htr
    rw [txAction_path env t w acct true nonce gasPrice gasLimit value chainID d
      h1 h2 h3 h4 h5 h6 h7 h8 h9 h10]
    simp [txFinish, acquirePassphrase, hpf, htr]
  · intro hpf hrf
    rw [msgAction_path env m w2 acct2 true d2 k1 k2 k3]
    simp [msgFinish, acquirePassphrase, hpf, hrf]
  · intro content hpf hrf
    rw [msgAction_path env m w2 acct2 true d2 k1 k2 k3]
    simp [msgFinish, acquirePassphrase, hpf, hrf]
  · intro hpf htr
    rw [msgAction_path env m w2 acct2 true d2 k1 k2 k3]
    simp [msgFinish, acquirePassphrase, hpf, htr]
  · intro pw hpf htr
    rw [msgAction_path env m w2 acct2 true d2 k1 k2 k3]
    simp [msgFinish, acquirePassphrase, hpf, htr]

/-- Witness for C4 at a concrete keystore environment, exercising the
passphrase-file branch and the terminal branch of both subcommands. -/
theorem passphrase_acquisition_keystore_witness :
    ksWallet.scheme = ("keystore") ∧
    txAction envKS txOptsKS = txSign envKS ksWallet ksAcct (trimNewline ("secret\n"))
      (txBuild false 1 (envKS.hexToAddress txOptsKS.toStr) 2 2 2 [171]) 2
      (getWallets envKS.keystoreWallets envKS.ledgerHub envKS.trezorHub).2 ∧
    txAction envKS txOptsTerm = txSign envKS ksWallet ksAcct ("typed")
      (txBuild false 1 (envKS.hexToAddress txOptsTerm.toStr) 2 2 2 [171]) 2
      ((getWallets envKS.keystoreWallets envKS.ledgerHub envKS.trezorHub).2 ++ [promptMsg]) ∧
    msgAction envKS msgOptsKS = msgSign envKS ksWallet ksAcct (trimNewline ("secret\n"))
      (signHash envKS.keccak [171])
      (getWallets envKS.keystoreWallets envKS.ledgerHub envKS.trezorHub).2 ∧
    msgAction envKS msgOptsTerm = msgSign envKS ksWallet ksAcct ("typed")
      (signHash envKS.keccak [171])
      ((getWallets envKS.keystoreWallets envKS.ledgerHub envKS.trezorHub).2 ++ [promptMsg]) := by
  have hA := passphrase_acquisition_keystore envKS txOptsKS msgOptsKS ksWallet ksWallet
    ksAcct ksAcct 1 2 2 2 2 [171] [171] rfl rfl rfl rfl rfl rfl rfl rfl rfl rfl rfl rfl rfl
  have hB := passphrase_acquisition_keystore envKS txOptsTerm msgOptsTerm ksWallet ksWallet
    ksAcct ksAcct 1 2 2 2 2 [171] [171] rfl rfl rfl rfl rfl rfl rfl rfl rfl rfl rfl rfl rfl
  exact ⟨hA.1,
    hA.2.2.2.1 ("secret\n") (by decide) rfl,
    hB.2.2.2.2.2.1 ("typed") rfl rfl,
    hA.2.2.2.2.2.2.2.1 ("secret\n") (by decide) rfl,
    hB.2.2.2.2.2.2.2.2.2 ("typed") rfl rfl⟩

/-- C7: when the matched account was found on a hardware wallet (the scan
cleared needPassphrase), neither the passphrase file nor the terminal is
consulted: the result is unchanged under replacing both readers, the waiting
notice is written to stderr, and the signing call receives the empty
passphrase, for the transaction and the message subcommand alike. -/
theorem hardware_wallet_no_passphrase (env : Env) (t : TxOpts) (m : MsgOpts)
    (w w2 : Wallet) (acct acct2 : Account)
    (nonce : Nat) (gasPrice gasLimit value chainID : Int) (d d2 : List Nat)
    (h1 : txRequireds.find? (fun r => decide (TxOpts.flag t r = "")) = none)
    (h2 : ((decide (t.toStr = "") && !t.create) || (!decide (t.toStr = "") && t.create)) = false)
    (h3 : (t.create && decide (t.data = "")) = false)
    (h4 : env.parseUint64 t.nonce = some nonce)
    (h5 : env.parseBig256 t.gasPrice = some gasPrice)
    (h6 : env.parseBig256 t.gasLimit = some gasLimit)
    (h7 : env.parseBig256 t.value = some value)
    (h8 : env.parseBig256 t.chainId = some chainID)
    (h9 : env.mustDecode (txDataDefault t.data) = some d)
    (h10 : scan (env.hexToAddress t.fromStr)
        (getWallets env.keystoreWallets env.ledgerHub env.trezorHub).1
        = Except.ok (some (w, acct, false)))
    (k1 : msgRequireds.find? (fun r => decide (MsgOpts.flag m r = "")) = none)
    (k2 : env.mustDecode (msgNormalize m.data) = some d2)
    (k3 : scan (env.hexToAddress m.fromStr)
        (getWallets env.keystoreWallets env.ledgerHub env.trezorHub).1
        = Except.ok (some (w2, acct2, false))) :
    w.scheme = ("ledger") ∧ w2.scheme = ("ledger") ∧
    txAction env t = txSign env w acct ("")
      (txBuild t.create nonce (env.hexToAddress t.toStr) value gasLimit gasPrice d) chainID
      ((getWallets env.keystoreWallets env.ledgerHub env.trezorHub).2 ++ [waitingMsg]) ∧
    (txAction env t).signedWith =
      some (("") , txBuild t.create nonce (env.hexToAddress t.toStr) value gasLimit gasPrice d,
        chainID) ∧
    msgAction env m = msgSign env w2 acct2 ("") (signHash env.keccak d2)
      ((getWallets env.keystoreWallets env.ledgerHub env.trezorHub).2 ++ [waitingMsg]) ∧
    (msgAction env m).signedWith = some (("") , signHash env.keccak d2) ∧
    (∀ rf tr, txAction (env.withIO rf tr) t = txAction env t) ∧
    (∀ rf tr, msgAction (env.withIO rf tr) m = msgAction env m) := by
  have e1 : txAction env t = txSign env w acct ("")
      (txBuild t.create nonce (env.hexToAddress t.toStr) value gasLimit gasPrice d) chainID
      ((getWallets env.keystoreWallets env.ledgerHub env.trezorHub).2 ++ [waitingMsg]) := by
    rw [txAction_path env t w acct false nonce gasPrice gasLimit value chainID d
      h1 h2 h3 h4 h5 h6 h7 h8 h9 h10]
    simp [txFinish, acquirePassphrase]
  have e2 : msgAction env m = msgSign env w2 acct2 ("") (signHash env.keccak d2)
      ((getWallets env.keystoreWallets env.ledgerHub env.trezorHub).2 ++ [waitingMsg]) := by
    rw [msgAction_path env m w2 acct2 false d2 k1 k2 k3]
    simp [msgFinish, acquirePassphrase]
  refine ⟨scan_match_ledger _ _ _ _ h10, scan_match_ledger _ _ _ _ k3, e1, ?_, e2, ?_, ?_, ?_⟩
  · rw [e1]
    unfold txSign
    cases hs : env.signTx w acct ("")
        (txBuild t.create nonce (env.hexToAddress t.toStr) value gasLimit gasPrice d) chainID with
    | none => simp [hs]
    | some s => simp [hs]
  · rw [e2]
    unfold msgSign
    cases hs : env.signHashWP w2 acct2 ("") (signHash env.keccak d2) with
    | none => simp [hs]
    | some s =>
      simp only [hs]
      cases hg : s[64]? with
      | none => simp [hg]
      | some b => simp [hg]
  · intro rf tr
    have e3 : txAction (env.withIO rf tr) t = txSign (env.withIO rf tr) w acct ("")
        (txBuild t.create nonce (env.hexToAddress t.toStr) value gasLimit gasPrice d) chainID
        ((getWallets env.keystoreWallets env.ledgerHub env.trezorHub).2 ++ [waitingMsg]) := by
      rw [txAction_path (env.withIO rf tr) t w acct false nonce gasPrice gasLimit value chainID d
        h1 h2 h3 h4 h5 h6 h7 h8 h9 h10]
      simp [txFinish, acquirePassphrase, Env.withIO]
    rw [e3, e1]
    simp [txSign, Env.withIO]
  · intro rf tr
    have e3 : msgAction (env.withIO rf tr) m = msgSign (env.withIO rf tr) w2 acct2 ("")
        (signHash env.keccak d2)
        ((getWallets env.keystoreWallets env.ledgerHub env.trezorHub).2 ++ [waitingMsg]) := by
      rw [msgAction_path (env.withIO rf tr) m w2 acct2 false d2 k1 k2 k3]
      simp [msgFinish, acquirePassphrase, Env.withIO]
    rw [e3, e2]
    simp [msgSign, Env.withIO]

/-- Witness for C7 at a concrete Ledger-backed environment. -/
theorem hardware_wallet_no_passphrase_witness :
    ledgerWallet.scheme = ("ledger") ∧
    txAction envLedger txOptsKS = txSign envLedger ledgerWallet ⟨9⟩ ("")
      (txBuild false 1 (envLedger.hexToAddress txOptsKS.toStr) 2 2 2 [171]) 2
      ((getWallets envLedger.keystoreWallets envLedger.ledgerHub envLedger.trezorHub).2
        ++ [waitingMsg]) ∧
    (txAction envLedger txOptsKS).signedWith =
      some (("") , txBuild false 1 (envLedger.hexToAddress txOptsKS.toStr) 2 2 2 [171], 2) ∧
    msgAction envLedger msgOptsKS = msgSign envLedger ledgerWallet ⟨9⟩ ("")
      (signHash envLedger.keccak [171])
      ((getWallets envLedger.keystoreWallets envLedger.ledgerHub envLedger.trezorHub).2
        ++ [waitingMsg]) ∧
    txAction (envLedger.withIO (fun _ => none) none) txOptsKS = txAction envLedger txOptsKS := by
  have h := hardware_wallet_no_passphrase envLedger txOptsKS msgOptsKS ledgerWallet ledgerWallet
    ⟨9⟩ ⟨9⟩ 1 2 2 2 2 [171] [171] rfl rfl rfl rfl rfl rfl rfl rfl rfl rfl rfl rfl rfl
  exact ⟨h.1, h.2.2.1, h.2.2.2.1, h.2.2.2.2.1, h.2.2.2.2.2.2.1 (fun _ => none) none⟩

/-- C9: on every message invocation that reaches a successful signing call
returning a 65-byte signature, 27 is added modulo 256 to the final signature
byte before hex encoding, the first 64 bytes are printed unchanged, and the
hex string is the only stdout line. -/
theorem message_v_transform (env : Env) (m : MsgOpts) (w : Wallet) (acct : Account)
    (np : Bool) (d : List Nat) (errOut : List String) (p : String) (sig : List Nat)
    (k1 : msgRequireds.find? (fun r => decide (MsgOpts.flag m r = "")) = none)
    (k2 : env.mustDecode (msgNormalize m.data) = some d)
    (k3 : scan (env.hexToAddress m.fromStr)
        (getWallets env.keystoreWallets env.ledgerHub env.trezorHub).1
        = Except.ok (some (w, acct, np)))
    (h11 : acquirePassphrase env m.passphraseFile np = (errOut, Except.ok p))
    (h12 : env.signHashWP w acct p (signHash env.keccak d) = some sig)
    (h13 : sig.length = 65) :
    msgAction env m =
      ⟨Outcome.success,
        [hexEncode (sig.take 64 ++ [(sig.getD 64 0 + 27) % 256])],
        (getWallets env.keystoreWallets env.ledgerHub env.trezorHub).2 ++ errOut,
        some (p, signHash env.keccak d)⟩ := by
  have h64 : 64 < sig.length := by omega
  rw [msgAction_path env m w acct np d k1 k2 k3]
  simp only [msgFinish, h11]
  simp only [msgSign, h12]
  simp only [List.getElem?_eq_getElem h64]
  have hset : sig.set 64 ((sig[64] + 27) % 256)
      = sig.take 64 ++ ((sig[64] + 27) % 256) :: sig.drop 65 :=
    List.set_eq_take_cons_drop _ h64
  have hdrop : sig.drop 65 = [] := List.drop_eq_nil_of_le (by omega)
  have hgetD : sig.getD 64 0 = sig[64] := by
    rw [List.getD_eq_getElem?_getD, List.getElem?_eq_getElem h64]
    rfl
  rw [hset, hdrop, hgetD]

/-- Witness for C9 at a concrete keystore environment and 65-byte signature. -/
theorem message_v_transform_witness :
    msgAction envKS msgOptsKS =
      ⟨Outcome.success,
        [hexEncode (sig65.take 64 ++ [(sig65.getD 64 0 + 27) % 256])],
        (getWallets envKS.keystoreWallets envKS.ledgerHub envKS.trezorHub).2 ++ [],
        some (trimNewline ("secret\n"), signHash envKS.keccak [171])⟩ :=
  message_v_transform envKS msgOptsKS ksWallet ksAcct true [171] []
    (trimNewline ("secret\n")) sig65 rfl rfl rfl rfl rfl (by decide)

end Ethsign
